import Mathlib

/-!
Verification development for the ENOUGH Resource Map pipeline
(`pipeline/modules/combine_data.py` and `pipeline/modules/maryland_excel.py`).

The combination stage (`combine_data.run`) is embedded as a pure function over
the contents of the input files it reads.  Conventions of the embedding:

* a geometry (census-tract polygon) is modelled by its containment predicate
  `Pt → Bool`, i.e. by the set of points `p` for which shapely's
  `p.within(geom)` holds; the union of several geometries
  (`GeoDataFrame.unary_union`) therefore contains a point exactly when some
  member geometry does;
* coordinates are rationals (the float values that occur in the data);
* a pandas `DataFrame` / `GeoDataFrame` is a `List` of row records, `NaN` in an
  object column is `Option.none`;
* `to_crs(epsg=4326)` is the identity: inputs are given already in WGS84, and
  reprojection touches only the geometry objects, which are abstract here.
-/

namespace ResourceMap

/-- Point geometry: a WGS84 longitude/latitude pair. -/
structure Pt where
  x : Rat
  y : Rat
deriving DecidableEq, Repr

/-- Polygon/multipolygon geometry, modelled by its point-containment
predicate (the set of points that are `within` it). -/
def Geom : Type := Pt → Bool

/-- One raw row of the grantee boundary source (`grantees_raw.geojson`):
a census-tract id, an organization name, a program-track label and the tract
polygon.  Several rows may share one `GEOID20`. -/
structure GranteeRow where
  GEOID20 : String
  ORGANIZATION_NAME : Option String
  GOC_TRACK_TYPE : Option String
  geometry : Geom

/-- Worker for `dedupFirst`: `seen` accumulates the values already emitted. -/
def dedupFirstAux {α : Type} [DecidableEq α] (seen : List α) : List α → List α
  | [] => []
  | a :: as =>
    if a ∈ seen then dedupFirstAux seen as
    else a :: dedupFirstAux (a :: seen) as

/-- First-occurrence deduplication of a list, dropping later repetitions of an
element (the order of `pandas.Series.unique`). -/
def dedupFirst {α : Type} [DecidableEq α] (l : List α) : List α :=
  dedupFirstAux [] l

/-- Worker for `dedupFirstBy`: `seen` accumulates keys already emitted. -/
def dedupFirstByAux {α β : Type} [DecidableEq β] (key : α → β) (seen : List β) :
    List α → List α
  | [] => []
  | a :: as =>
    if key a ∈ seen then dedupFirstByAux key seen as
    else a :: dedupFirstByAux key (key a :: seen) as

/-- Keyed first-occurrence deduplication: keep the first row carrying each key
(`DataFrame.drop_duplicates(subset=key)`). -/
def dedupFirstBy {α β : Type} [DecidableEq β] (key : α → β) (l : List α) : List α :=
  dedupFirstByAux key [] l

/-! Boundary Loader (`combine_data.py`, lines 61-68).

`unique_geometry = grantees_gdf.drop_duplicates(subset="GEOID20")[["GEOID20", "geometry"]]`
keeps the first row per `GEOID20`;
`grantee_data = grantees_gdf.groupby("GEOID20").agg(...)` aggregates
`ORGANIZATION_NAME` by joining the distinct non-null names of the group with
"; " (`pandas.Series.unique` keeps first-appearance order) and
`GOC_TRACK_TYPE` by the `"first"` aggregator, which is pandas
`GroupBy.first`: the first NON-NULL value of the group (`skipna=True`), not
the literal first row's value.  `groupby` emits one row per distinct key, in
sorted key order; the subsequent inner `merge` on `GEOID20` re-orders rows to
the left (`unique_geometry`) frame's first-appearance order. -/

/-- Lexicographic order on character lists, comparing code points — the
order in which Python (and hence pandas) compares strings. -/
def lexLe : List Char → List Char → Bool
  | [], _ => true
  | _ :: _, [] => false
  | a :: as, b :: bs =>
    if a.toNat < b.toNat then true
    else if b.toNat < a.toNat then false
    else lexLe as bs

/-- String comparison by code points. -/
def strLe (a b : String) : Bool :=
  lexLe a.data b.data

/-- Insertion of an element into a list ahead of the first element it is `le`
to. -/
def insertLe (a : String) : List String → List String
  | [] => [a]
  | b :: bs => if strLe a b then a :: b :: bs else b :: insertLe a bs

/-- Ascending insertion sort on strings — the key order in which
`DataFrame.groupby` (with its default `sort=True`) emits the groups. -/
def sortStrings : List String → List String
  | [] => []
  | a :: as => insertLe a (sortStrings as)

/-- One aggregated attribute row of `grantee_data`. -/
structure GroupRow where
  GEOID20 : String
  ORGANIZATION_NAME : String
  GOC_TRACK_TYPE : Option String
deriving DecidableEq, Repr

/-- First row kept per `GEOID20` (`drop_duplicates(subset="GEOID20")`),
carrying the id and the first-seen geometry. -/
def unique_geometry (rows : List GranteeRow) : List GranteeRow :=
  dedupFirstBy GranteeRow.GEOID20 rows

/-- Aggregation applied to the `ORGANIZATION_NAME` column of one group:
`lambda x: "; ".join(x.dropna().unique())`. -/
def orgAgg (grp : List GranteeRow) : String :=
  String.intercalate "; " (dedupFirst (grp.filterMap GranteeRow.ORGANIZATION_NAME))

/-- Aggregation applied to the `GOC_TRACK_TYPE` column of one group: the
pandas `"first"` aggregator, i.e. the first non-null value (none if the whole
group is null). -/
def trackAgg (grp : List GranteeRow) : Option String :=
  (grp.filterMap GranteeRow.GOC_TRACK_TYPE).head?

/-- The group of raw rows carrying key `k`, in original row order. -/
def groupOf (rows : List GranteeRow) (k : String) : List GranteeRow :=
  rows.filter (fun r => decide (r.GEOID20 = k))

/-- The aggregated `grantee_data` row for key `k`. -/
def groupRowFor (rows : List GranteeRow) (k : String) : GroupRow :=
  ⟨k, orgAgg (groupOf rows k), trackAgg (groupOf rows k)⟩

/-- `grantee_data = grantees_gdf.groupby("GEOID20").agg(...).reset_index()`:
one aggregated row per distinct `GEOID20`, in sorted key order. -/
def grantee_data (rows : List GranteeRow) : List GroupRow :=
  (sortStrings (dedupFirst (rows.map GranteeRow.GEOID20))).map (groupRowFor rows)

/-- One deduplicated boundary row (the row shape of `grantees_processed`
and `grantees`). -/
structure BoundaryRegion where
  GEOID20 : String
  geometry : Geom
  ORGANIZATION_NAME : String
  GOC_TRACK_TYPE : Option String

/-- `grantees_processed = unique_geometry.merge(grantee_data, on="GEOID20")`:
inner equi-join, one output row per matching (left row, right row) pair, in
left-frame key order. -/
def grantees_processed (rows : List GranteeRow) : List BoundaryRegion :=
  (unique_geometry rows).flatMap (fun u =>
    ((grantee_data rows).filter (fun g => decide (g.GEOID20 = u.GEOID20))).map
      (fun g => ⟨u.GEOID20, u.geometry, g.ORGANIZATION_NAME, g.GOC_TRACK_TYPE⟩))

/-- Eligibility filter on the aggregated track label:
`GOC_TRACK_TYPE.notna() & (GOC_TRACK_TYPE != "")`. -/
def eligibleTrack : Option String → Bool
  | none => false
  | some s => !decide (s = "")

/-- `grantees`: the eligible boundary set (line 68). -/
def grantees (rows : List GranteeRow) : List BoundaryRegion :=
  (grantees_processed rows).filter (fun b => eligibleTrack b.GOC_TRACK_TYPE)

/-! Schema Normalizer (`combine_data.py`, lines 70-143). -/

/-- The NCUA boolean service-flag columns kept in the combined frame
(list `ncua_boolean_fields`, with `payday_alternative_loans` already the OR
of `palS_I` and `palS_II`).  Rows from the other sources carry none of these
columns, so after `pd.concat` they hold null there (`Option.none` on the
`flags` field of `PointRow`). -/
structure NcuaFlags where
  isMainOffice : Bool
  isMdi : Bool
  bilingual_Services : Bool
  credit_Builder : Bool
  financial_Counseling : Bool
  first_Time_Homebuyer_Program : Bool
  inSchoolBranch : Bool
  low_cost_wire_transfers : Bool
  no_Cost_Tax_Preparation : Bool
  no_Cost_Share_Drafts : Bool
  payday_alternative_loans : Bool
deriving DecidableEq, Repr

/-- One canonical point row of `all_points` (before the label columns are
added). -/
structure PointRow where
  name : Option String
  type : String
  tag : String
  quality : Option Int
  flags : Option NcuaFlags
  geometry : Pt
deriving DecidableEq, Repr

/-- One row of `input/resources.csv` (columns written by `osm.py`). -/
structure ResourceRow where
  name : Option String
  type : String
  tag : String
  lat : Rat
  lng : Rat
deriving DecidableEq, Repr

/-- One feature of `input/fdic.geojson`. -/
structure FdicRow where
  NAMEFULL : Option String
  geometry : Pt
deriving DecidableEq, Repr

/-- One feature of `input/ncua.geojson` (raw PALS booleans still split). -/
structure NcuaRow where
  creditUnionName : Option String
  isMainOffice : Bool
  isMdi : Bool
  bilingual_Services : Bool
  credit_Builder : Bool
  financial_Counseling : Bool
  first_Time_Homebuyer_Program : Bool
  inSchoolBranch : Bool
  low_cost_wire_transfers : Bool
  no_Cost_Tax_Preparation : Bool
  no_Cost_Share_Drafts : Bool
  palS_I : Bool
  palS_II : Bool
  geometry : Pt
deriving DecidableEq, Repr

/-- One feature of `input/childcare.geojson` (written by
`maryland_excel.py`: properties `name`, `tag_label`, `quality`). -/
structure ChildcareRow where
  name : Option String
  tag_label : String
  quality : Option Int
  geometry : Pt
deriving DecidableEq, Repr

/-- One feature of `input/maryland_food_bank.geojson` or
`input/capital_area_food_bank.geojson` (properties `name`, `type`). -/
structure FoodBankRow where
  name : Option String
  type : String
  geometry : Pt
deriving DecidableEq, Repr

/-- Resource points (line 72-77): geometry built from the `lng`/`lat`
columns; `type` and `tag` taken verbatim. -/
def points_gdf (rs : List ResourceRow) : List PointRow :=
  rs.map (fun r => ⟨r.name, r.type, r.tag, none, none, ⟨r.lng, r.lat⟩⟩)

/-- FDIC banks (lines 82-85): `NAMEFULL` renamed to `name`, literal
`tag = "bank"`, `type = "financial"`, no flag columns. -/
def fdic_points (rs : List FdicRow) : List PointRow :=
  rs.map (fun r => ⟨r.NAMEFULL, "financial", "bank", none, none, r.geometry⟩)

/-- NCUA credit unions (lines 88-106): `creditUnionName` renamed to `name`,
literal `tag = "credit_union"`, `type = "financial"`,
`payday_alternative_loans = palS_I | palS_II`, and the enumerated boolean
fields carried over. -/
def ncua_points (rs : List NcuaRow) : List PointRow :=
  rs.map (fun r => ⟨r.creditUnionName, "financial", "credit_union", none,
    some ⟨r.isMainOffice, r.isMdi, r.bilingual_Services, r.credit_Builder,
      r.financial_Counseling, r.first_Time_Homebuyer_Program, r.inSchoolBranch,
      r.low_cost_wire_transfers, r.no_Cost_Tax_Preparation,
      r.no_Cost_Share_Drafts, r.palS_I || r.palS_II⟩, r.geometry⟩)

/-- Replacement of every occurrence of one character by another — the
`Series.str.replace` calls of the source all have a single-character pattern
and replacement, where `str.replace` is exactly a per-character map. -/
def replaceChar (a b : Char) (s : String) : String :=
  String.mk (s.data.map (fun c => if c = a then b else c))

/-- Lower-casing of a cell (`str.lower()`). -/
def lowerStr (s : String) : String :=
  String.mk (s.data.map Char.toLower)

/-- Childcare tag derivation (line 112):
`tag_label.str.lower().str.replace(" ", "_")`. -/
def childcare_tag (label : String) : String :=
  replaceChar ' ' '_' (lowerStr label)

/-- Childcare points (lines 111-115): `type = "childcare"`, derived `tag`,
`quality` kept. -/
def childcare_points (rs : List ChildcareRow) : List PointRow :=
  rs.map (fun r =>
    ⟨r.name, "childcare", childcare_tag r.tag_label, r.quality, none, r.geometry⟩)

/-- Food-bank points (lines 119-129, both feeds): the raw `type` becomes the
`tag`, `type = "food_pantry"`. -/
def food_bank_points (rs : List FoodBankRow) : List PointRow :=
  rs.map (fun r => ⟨r.name, "food_pantry", r.type, none, none, r.geometry⟩)

/-- The parsed contents of the seven input files `combine_data.run` reads. -/
structure Inputs where
  grantees_raw : List GranteeRow
  resources : List ResourceRow
  fdic : List FdicRow
  ncua : List NcuaRow
  childcare : List ChildcareRow
  maryland_food_bank : List FoodBankRow
  capital_area_food_bank : List FoodBankRow

/-- `all_points = pd.concat([...], ignore_index=True)` (lines 133-139). -/
def all_points (i : Inputs) : List PointRow :=
  points_gdf i.resources ++ fdic_points i.fdic ++ ncua_points i.ncua ++
  childcare_points i.childcare ++ food_bank_points i.maryland_food_bank ++
  food_bank_points i.capital_area_food_bank

/-- Python's `str.title()`: the first character of each alphabetic run is
upper-cased, the rest lower-cased.  The boolean argument tracks whether the
previous character was alphabetic. -/
def titleChars : Bool → List Char → List Char
  | _, [] => []
  | prev, c :: cs =>
    (if c.isAlpha then (if prev then c.toLower else c.toUpper) else c) ::
      titleChars c.isAlpha cs

/-- `Series.str.title()` on one cell. -/
def strTitle (s : String) : String :=
  String.mk (titleChars false s.data)

/-- Label derivation (lines 142-143): `.str.replace("_", " ").str.title()`. -/
def labelOf (s : String) : String :=
  strTitle (replaceChar '_' ' ' s)

/-- A canonical point with the two derived label columns added. -/
structure LabeledPoint where
  p : PointRow
  type_label : String
  tag_label : String
deriving DecidableEq, Repr

/-- Adding the `type_label` and `tag_label` columns to one row. -/
def labeled (p : PointRow) : LabeledPoint :=
  ⟨p, labelOf p.type, labelOf p.tag⟩

/-- `all_points` after lines 142-143. -/
def labeled_points (i : Inputs) : List LabeledPoint :=
  (all_points i).map labeled

/-! Spatial Join Engine (`combine_data.py`, lines 146-154). -/

/-- Containment in `grantees_gdf.unary_union`, the union of ALL raw boundary
geometries (no eligibility filter): a point is within the union exactly when
it is within some member geometry. -/
def withinUnion (pt : Pt) (rows : List GranteeRow) : Bool :=
  rows.any (fun r => r.geometry pt)

/-- `points_in_md = all_points[all_points.within(md_tracts_union)]`
(line 147). -/
def points_in_md (i : Inputs) : List LabeledPoint :=
  (labeled_points i).filter (fun lp => withinUnion lp.p.geometry i.grantees_raw)

/-- One row of the joined frame `points_with_tracts` before the `grantee`
column is added. -/
structure JoinedRow where
  lp : LabeledPoint
  GEOID20 : Option String
deriving DecidableEq, Repr

/-- The rows `gpd.sjoin(..., how="left", predicate="within")` emits for one
left row: one output row per eligible region whose polygon contains the
point, or a single unmatched row with null `GEOID20` when no region does. -/
def joinMatches (regs : List BoundaryRegion) (lp : LabeledPoint) : List JoinedRow :=
  match regs.filter (fun r => r.geometry lp.p.geometry) with
  | [] => [⟨lp, none⟩]
  | ms => ms.map (fun r => ⟨lp, some r.GEOID20⟩)

/-- `gpd.sjoin(points_in_md, grantees[["GEOID20", "geometry"]], how="left",
predicate="within")` (line 149), with `index_right` dropped. -/
def sjoin_left_within (pts : List LabeledPoint) (regs : List BoundaryRegion) :
    List JoinedRow :=
  pts.flatMap (joinMatches regs)

/-- One row of `points_with_tracts` after line 154. -/
structure OutRow where
  lp : LabeledPoint
  GEOID20 : Option String
  grantee : Bool
deriving DecidableEq, Repr

/-- `set(grantees["GEOID20"])` (line 153), as a list of ids. -/
def grantee_geoids (i : Inputs) : List String :=
  (grantees i.grantees_raw).map BoundaryRegion.GEOID20

/-- `points_with_tracts["GEOID20"].isin(grantee_geoids)`: null is never in
the set. -/
def isinGrantees (i : Inputs) : Option String → Bool
  | none => false
  | some g => (grantee_geoids i).contains g

/-- `points_with_tracts` with the `grantee` boolean column (lines 149-154). -/
def points_with_tracts (i : Inputs) : List OutRow :=
  (sjoin_left_within (points_in_md i) (grantees i.grantees_raw)).map
    (fun j => ⟨j.lp, j.GEOID20, isinGrantees i j.GEOID20⟩)

/-! Aggregator/Emitter (`combine_data.py`, lines 159-175). -/

/-- One row of the tabular extract `grantee_points.csv`: all point columns,
the two label columns, `GEOID20`, the `grantee` flag, and the `lng`/`lat`
columns recomputed from the geometry (lines 161-162); the geometry column
itself is dropped (line 163). -/
structure CsvRow where
  name : Option String
  type : String
  tag : String
  quality : Option Int
  flags : Option NcuaFlags
  type_label : String
  tag_label : String
  GEOID20 : Option String
  grantee : Bool
  lng : Rat
  lat : Rat
deriving DecidableEq, Repr

/-- Projection of a joined row to its CSV output row. -/
def toCsvRow (r : OutRow) : CsvRow :=
  ⟨r.lp.p.name, r.lp.p.type, r.lp.p.tag, r.lp.p.quality, r.lp.p.flags,
   r.lp.type_label, r.lp.tag_label, r.GEOID20, r.grantee,
   r.lp.p.geometry.x, r.lp.p.geometry.y⟩

/-- `grantee_points = points_with_tracts[points_with_tracts["grantee"]]`
(line 159). -/
def grantee_points (i : Inputs) : List OutRow :=
  (points_with_tracts i).filter OutRow.grantee

/-- The rows written to `grantee_points.csv` (lines 159-163). -/
def grantee_points_csv (i : Inputs) : List CsvRow :=
  (grantee_points i).map toCsvRow

/-- The per-category GeoJSON files (lines 167-171): one file per value of
`points_with_tracts["type"].unique()`, holding the full subset of that type
(no eligibility filter). -/
def category_files (i : Inputs) : List (String × List OutRow) :=
  (dedupFirst ((points_with_tracts i).map (fun r => r.lp.p.type))).map
    (fun t => (t, (points_with_tracts i).filter (fun r => decide (r.lp.p.type = t))))

/-- The three kinds of output files `combine_data.run` writes. -/
structure Outputs where
  grantee_points_csv : List CsvRow
  category_files : List (String × List OutRow)
  grantees_geojson : List BoundaryRegion

/-- The whole transform on parsed inputs: lines 57-175 of the source. -/
def processInputs (i : Inputs) : Outputs :=
  ⟨grantee_points_csv i, category_files i, grantees i.grantees_raw⟩

/-! File acquisition (`combine_data.py`, lines 17-55 and 70-129).  Each field
is `some` content when the file exists and parses, `none` when it is absent.
In the source every input read (lines 28-129) happens before the first output
write (line 163), so a missing input aborts the run with no output file
written; the embedding returns `none` for the whole `Outputs` value in that
case. -/
structure FileSystem where
  grantees_cache : Option (List GranteeRow)
  grantees_download : Option (List GranteeRow)
  resources : Option (List ResourceRow)
  fdic : Option (List FdicRow)
  ncua : Option (List NcuaRow)
  childcare : Option (List ChildcareRow)
  maryland_food_bank : Option (List FoodBankRow)
  capital_area_food_bank : Option (List FoodBankRow)

/-- Grantee acquisition (lines 26-55): use the cache unless a refresh is
forced or the cache is unusable; otherwise download, falling back to a stale
cache, and give up (`return`) when neither is available. -/
def fetch_grantees (force_refresh_grantees : Bool) (fs : FileSystem) :
    Option (List GranteeRow) :=
  if !force_refresh_grantees && fs.grantees_cache.isSome then
    fs.grantees_cache
  else
    match fs.grantees_download with
    | some g => some g
    | none => fs.grantees_cache

/-- The embedded `combine_data.run`: acquire each input in source order, then
apply the pure transform; any missing input yields `none` (the run aborts
before writing anything). -/
def run (force_refresh_grantees : Bool) (fs : FileSystem) : Option Outputs := do
  let graw ← fetch_grantees force_refresh_grantees fs
  let rs ← fs.resources
  let fd ← fs.fdic
  let nc ← fs.ncua
  let cc ← fs.childcare
  let mf ← fs.maryland_food_bank
  let cf ← fs.capital_area_food_bank
  some (processInputs ⟨graw, rs, fd, nc, cc, mf, cf⟩)

end ResourceMap

namespace MarylandExcel

/-! Embedding of `create_geojson_feature` (`maryland_excel.py`, lines 71-94).
The provider records come from a JSON API, so a field value is null, a
string, an integer, a float, or some other JSON value (list/object). -/

/-- A JSON field value as seen by `record.get(...)`. -/
inductive PyVal where
  | pnone
  | pstr (s : String)
  | pint (n : Int)
  | pfloat (q : Rat)
  | pother
deriving DecidableEq, Repr

/-- Numeric value of a digit string (most significant first). -/
def digitsVal (l : List Char) : Nat :=
  l.foldl (fun acc c => 10 * acc + (c.toNat - 48)) 0

/-- Whether every character is an ASCII digit. -/
def allDigits (l : List Char) : Bool :=
  l.all Char.isDigit

/-- Surrounding-whitespace removal on a character list (`str.strip()`, as
performed by Python's numeric constructors). -/
def trimChars (l : List Char) : List Char :=
  ((l.dropWhile Char.isWhitespace).reverse.dropWhile Char.isWhitespace).reverse

/-- Python `int(s)` on a string: optional surrounding whitespace, an optional
sign, then digits only; anything else raises `ValueError`. -/
def parseIntStr (s : String) : Option Int :=
  let core : List Char → Option Int := fun l =>
    if !l.isEmpty && allDigits l then some (Int.ofNat (digitsVal l)) else none
  match trimChars s.data with
  | '+' :: rest => core rest
  | '-' :: rest => (core rest).map Neg.neg
  | rest => core rest

/-- Python `float(s)` on an unsigned body: digits with an optional single
decimal point, at least one digit overall (`"7"`, `"7."`, `".5"`, `"3.25"`).
Exponent, infinity and nan forms are not modelled; they only widen the set of
parseable strings. -/
def parseUnsignedFloat (l : List Char) : Option Rat :=
  match l.splitOn '.' with
  | [ip] =>
    if !ip.isEmpty && allDigits ip then some ((digitsVal ip : Int) : Rat) else none
  | [ip, fp] =>
    if (!ip.isEmpty || !fp.isEmpty) && allDigits ip && allDigits fp then
      some (((digitsVal ip : Int) : Rat)
        + ((digitsVal fp : Int) : Rat) / ((10 ^ fp.length : Int) : Rat))
    else none
  | _ => none

/-- Python `float(s)` on a string: optional surrounding whitespace and an
optional sign around the unsigned body. -/
def parseFloatStr (s : String) : Option Rat :=
  match trimChars s.data with
  | '+' :: rest => parseUnsignedFloat rest
  | '-' :: rest => (parseUnsignedFloat rest).map Neg.neg
  | rest => parseUnsignedFloat rest

/-- Python `float(v)`: `none` models a raised `TypeError`/`ValueError`. -/
def pyFloat : PyVal → Option Rat
  | .pnone => none
  | .pstr s => parseFloatStr s
  | .pint n => some (n : Rat)
  | .pfloat q => some q
  | .pother => none

/-- Python `int(v)`: on a float, truncation toward zero; `none` models a
raised `TypeError`/`ValueError`. -/
def pyInt : PyVal → Option Int
  | .pnone => none
  | .pstr s => parseIntStr s
  | .pint n => some n
  | .pfloat q => some (q.num.tdiv (q.den : Int))
  | .pother => none

/-- The fields of one provider record that `create_geojson_feature` reads. -/
structure ProviderRecord where
  name : Option String
  ptype : Option String
  long : PyVal
  lat : PyVal
  rating : PyVal
deriving DecidableEq, Repr

/-- One emitted GeoJSON feature. -/
structure Feature where
  longitude : Rat
  latitude : Rat
  name : Option String
  tag_label : Option String
  quality : Option Int
deriving DecidableEq, Repr

/-- `create_geojson_feature` (lines 71-94): parse the coordinates (an inner
failure returns no feature at all); `quality` is `int(overall_rating)` when
the rating is non-null and integer-convertible, otherwise null. -/
def create_geojson_feature (r : ProviderRecord) : Option Feature :=
  match pyFloat r.long with
  | none => none
  | some lon =>
    match pyFloat r.lat with
    | none => none
    | some lat =>
      let quality : Option Int :=
        match r.rating with
        | .pnone => none
        | v => pyInt v
      some ⟨lon, lat, r.name, r.ptype, quality⟩

end MarylandExcel

namespace ResourceMap

/-! Helper lemmas about the embedded operations. -/

theorem mem_dedupFirstAux {α : Type} [DecidableEq α] {l seen : List α} {a : α} :
    a ∈ dedupFirstAux seen l ↔ a ∈ l ∧ a ∉ seen := by
  induction l generalizing seen with
  | nil => simp [dedupFirstAux]
  | cons c cs ih =>
    by_cases hc : c ∈ seen
    · simp only [dedupFirstAux, if_pos hc, ih, List.mem_cons]
      constructor
      · rintro ⟨h1, h2⟩
        exact ⟨Or.inr h1, h2⟩
      · rintro ⟨h1 | h1, h2⟩
        · exact absurd (h1 ▸ hc) h2
        · exact ⟨h1, h2⟩
    · simp only [dedupFirstAux, if_neg hc, List.mem_cons, ih]
      constructor
      · rintro (rfl | ⟨h1, h2⟩)
        · exact ⟨Or.inl rfl, hc⟩
        · exact ⟨Or.inr h1, fun hs => h2 (Or.inr hs)⟩
      · rintro ⟨rfl | h1, h2⟩
        · exact Or.inl rfl
        · by_cases hac : a = c
          · exact Or.inl hac
          · exact Or.inr ⟨h1, by simp [hac, h2]⟩

theorem mem_dedupFirst {α : Type} [DecidableEq α] {l : List α} {a : α} :
    a ∈ dedupFirst l ↔ a ∈ l := by
  simp [dedupFirst, mem_dedupFirstAux]

theorem nodup_dedupFirstAux {α : Type} [DecidableEq α] (l : List α) :
    ∀ seen, (dedupFirstAux seen l).Nodup := by
  induction l with
  | nil => intro seen; simp [dedupFirstAux]
  | cons c cs ih =>
    intro seen
    by_cases hc : c ∈ seen
    · simpa [dedupFirstAux, if_pos hc] using ih seen
    · rw [dedupFirstAux, if_neg hc]
      refine List.nodup_cons.mpr ⟨fun hmem => ?_, ih _⟩
      exact (mem_dedupFirstAux.mp hmem).2 (List.mem_cons_self _ _)

theorem nodup_dedupFirst {α : Type} [DecidableEq α] (l : List α) :
    (dedupFirst l).Nodup :=
  nodup_dedupFirstAux l []

theorem mem_of_mem_dedupFirstByAux {α β : Type} [DecidableEq β] {key : α → β}
    (l : List α) {a : α} : ∀ {seen : List β}, a ∈ dedupFirstByAux key seen l →
    a ∈ l ∧ key a ∉ seen := by
  induction l with
  | nil =>
    intro seen h
    simp [dedupFirstByAux] at h
  | cons c cs ih =>
    intro seen h
    by_cases hc : key c ∈ seen
    · rw [dedupFirstByAux, if_pos hc] at h
      obtain ⟨h1, h2⟩ := ih h
      exact ⟨List.mem_cons_of_mem _ h1, h2⟩
    · rw [dedupFirstByAux, if_neg hc] at h
      rcases List.mem_cons.mp h with rfl | h
      · exact ⟨List.mem_cons_self _ _, hc⟩
      · obtain ⟨h1, h2⟩ := ih h
        exact ⟨List.mem_cons_of_mem _ h1,
          fun hs => h2 (List.mem_cons_of_mem _ hs)⟩

/-- The keys of the keyed deduplication are the deduplicated keys, in order. -/
theorem map_key_dedupFirstByAux {α β : Type} [DecidableEq β] (key : α → β)
    (l : List α) : ∀ seen, (dedupFirstByAux key seen l).map key
      = dedupFirstAux seen (l.map key) := by
  induction l with
  | nil => intro seen; simp [dedupFirstByAux, dedupFirstAux]
  | cons c cs ih =>
    intro seen
    by_cases hc : key c ∈ seen
    · simp only [dedupFirstByAux, List.map_cons, dedupFirstAux, if_pos hc, ih]
    · simp only [dedupFirstByAux, List.map_cons, dedupFirstAux, if_neg hc, ih]

theorem map_key_dedupFirstBy {α β : Type} [DecidableEq β] (key : α → β)
    (l : List α) : (dedupFirstBy key l).map key = dedupFirst (l.map key) :=
  map_key_dedupFirstByAux key l []

/-- An element surviving the keyed deduplication is the first row of the input
that carries its key. -/
theorem dedupFirstByAux_head {α β : Type} [DecidableEq β] {key : α → β}
    (l : List α) {a : α} : ∀ {seen : List β}, a ∈ dedupFirstByAux key seen l →
    (l.filter (fun b => decide (key b = key a))).head? = some a := by
  induction l with
  | nil =>
    intro seen h
    simp [dedupFirstByAux] at h
  | cons c cs ih =>
    intro seen h
    by_cases hc : key c ∈ seen
    · rw [dedupFirstByAux, if_pos hc] at h
      have hka : key a ∉ seen := (mem_of_mem_dedupFirstByAux cs h).2
      have hne : ¬ (key c = key a) := fun he => hka (he ▸ hc)
      rw [List.filter_cons, if_neg (by simpa using hne)]
      exact ih h
    · rw [dedupFirstByAux, if_neg hc] at h
      rcases List.mem_cons.mp h with rfl | h
      · rw [List.filter_cons, if_pos (by simp)]
        rfl
      · have hka : key a ∉ key c :: seen := (mem_of_mem_dedupFirstByAux _ h).2
        have hne : ¬ (key c = key a) := by
          intro he
          exact hka (he ▸ List.mem_cons_self _ _)
        rw [List.filter_cons, if_neg (by simpa using hne)]
        exact ih h

theorem dedupFirstBy_head {α β : Type} [DecidableEq β] {key : α → β}
    {l : List α} {a : α} (h : a ∈ dedupFirstBy key l) :
    (l.filter (fun b => decide (key b = key a))).head? = some a :=
  dedupFirstByAux_head l h

theorem insertLe_perm (a : String) (l : List String) :
    (insertLe a l).Perm (a :: l) := by
  induction l with
  | nil => exact List.Perm.refl _
  | cons b bs ih =>
    rw [insertLe]
    by_cases h : strLe a b
    · rw [if_pos h]
    · rw [if_neg h]
      exact (ih.cons b).trans (List.Perm.swap a b bs)

theorem sortStrings_perm (l : List String) : (sortStrings l).Perm l := by
  induction l with
  | nil => exact List.Perm.refl _
  | cons a as ih =>
    exact (insertLe_perm a (sortStrings as)).trans (ih.cons a)

theorem nodup_grantee_data_keys (rows : List GranteeRow) :
    ((grantee_data rows).map GroupRow.GEOID20).Nodup := by
  have hnodup : (sortStrings (dedupFirst (rows.map GranteeRow.GEOID20))).Nodup :=
    ((sortStrings_perm _).nodup_iff).mpr (nodup_dedupFirst _)
  have : (grantee_data rows).map GroupRow.GEOID20
      = (sortStrings (dedupFirst (rows.map GranteeRow.GEOID20))).map id := by
    unfold grantee_data
    rw [List.map_map]
    rfl
  rw [this]
  simpa using hnodup

theorem mem_grantee_data_keys {rows : List GranteeRow} {k : String} :
    k ∈ (grantee_data rows).map GroupRow.GEOID20 ↔ k ∈ rows.map GranteeRow.GEOID20 := by
  unfold grantee_data
  rw [List.map_map]
  have hcomp : (GroupRow.GEOID20 ∘ groupRowFor rows) = id := by
    funext x
    rfl
  rw [hcomp, List.map_id]
  rw [(sortStrings_perm _).mem_iff]
  exact mem_dedupFirst

/-- In a keyed list with no duplicate keys, filtering for one present key
returns exactly the row built from that key. -/
theorem filter_map_eq_singleton {β γ : Type} [DecidableEq β]
    (f : β → γ) (keyf : γ → β) (hkey : ∀ b, keyf (f b) = b) :
    ∀ (l : List β), l.Nodup → ∀ k ∈ l,
      (l.map f).filter (fun g => decide (keyf g = k)) = [f k] := by
  intro l
  induction l with
  | nil => intro _ k hk; simp at hk
  | cons c cs ih =>
    intro hnd k hk
    obtain ⟨hc, hcs⟩ := List.nodup_cons.mp hnd
    rcases List.mem_cons.mp hk with rfl | hk
    · rw [List.map_cons, List.filter_cons, if_pos (by simp [hkey])]
      have : (cs.map f).filter (fun g => decide (keyf g = k)) = [] := by
        rw [List.filter_eq_nil_iff]
        intro g hg
        obtain ⟨b, hb, rfl⟩ := List.mem_map.mp hg
        simp only [hkey, decide_eq_true_eq]
        exact fun he => hc (he ▸ hb)
      rw [this]
    · have hck : ¬ (c = k) := fun he => hc (he ▸ hk)
      rw [List.map_cons, List.filter_cons, if_neg (by simp [hkey, hck])]
      exact ih hcs k hk

/-- Filtering `grantee_data` for a key occurring in the raw rows yields
exactly the aggregated row of that key's group. -/
theorem grantee_data_lookup {rows : List GranteeRow} {k : String}
    (hk : k ∈ rows.map GranteeRow.GEOID20) :
    (grantee_data rows).filter (fun g => decide (g.GEOID20 = k))
      = [groupRowFor rows k] := by
  unfold grantee_data
  refine filter_map_eq_singleton (groupRowFor rows) GroupRow.GEOID20
    (fun b => rfl) _ ?_ k ?_
  · exact ((sortStrings_perm _).nodup_iff).mpr (nodup_dedupFirst _)
  · rw [(sortStrings_perm _).mem_iff]
    exact mem_dedupFirst.mpr hk

end ResourceMap

namespace ResourceMap

/-! Lemmas about the spatial join and the emitted rows. -/

theorem joinMatches_lp {regs : List BoundaryRegion} {lp : LabeledPoint} :
    ∀ j ∈ joinMatches regs lp, j.lp = lp := by
  intro j hj
  unfold joinMatches at hj
  split at hj
  · rw [List.mem_singleton] at hj
    rw [hj]
  · obtain ⟨r, _, rfl⟩ := List.mem_map.mp hj
    rfl

theorem joinMatches_ne_nil (regs : List BoundaryRegion) (lp : LabeledPoint) :
    joinMatches regs lp ≠ [] := by
  unfold joinMatches
  split
  · simp
  · rename_i hne
    intro hmap
    exact hne (by simpa using hmap)

theorem joinMatches_geoid {regs : List BoundaryRegion} {lp : LabeledPoint} :
    ∀ j ∈ joinMatches regs lp, ∀ g, j.GEOID20 = some g →
      g ∈ regs.map BoundaryRegion.GEOID20 := by
  intro j hj g hg
  unfold joinMatches at hj
  split at hj
  · rw [List.mem_singleton] at hj
    rw [hj] at hg
    exact absurd hg (by simp)
  · obtain ⟨r, hr, rfl⟩ := List.mem_map.mp hj
    obtain rfl : r.GEOID20 = g := by simpa using hg
    exact List.mem_map_of_mem _ (List.mem_of_mem_filter hr)

theorem mem_points_with_tracts {i : Inputs} {row : OutRow}
    (h : row ∈ points_with_tracts i) :
    row.lp ∈ points_in_md i ∧ row.grantee = isinGrantees i row.GEOID20 ∧
      (∀ g, row.GEOID20 = some g → g ∈ grantee_geoids i) := by
  obtain ⟨j, hj, rfl⟩ := List.mem_map.mp h
  obtain ⟨lp, hlp, hjm⟩ := List.mem_flatMap.mp hj
  have hlpj := joinMatches_lp _ hjm
  refine ⟨?_, rfl, ?_⟩
  · show j.lp ∈ points_in_md i
    rw [hlpj]
    exact hlp
  · intro g hg
    exact joinMatches_geoid _ hjm g hg

theorem mem_points_in_md {i : Inputs} {lp : LabeledPoint}
    (h : lp ∈ points_in_md i) :
    lp ∈ labeled_points i ∧ withinUnion lp.p.geometry i.grantees_raw = true :=
  List.mem_filter.mp h

theorem sjoin_filter_not_mem {pts : List LabeledPoint}
    {regs : List BoundaryRegion} {lp : LabeledPoint} (h : lp ∉ pts) :
    (sjoin_left_within pts regs).filter (fun j => decide (j.lp = lp)) = [] := by
  rw [List.filter_eq_nil_iff]
  intro j hj
  obtain ⟨lp', hlp', hjm⟩ := List.mem_flatMap.mp hj
  have hl := joinMatches_lp _ hjm
  simp only [decide_eq_true_eq]
  intro he
  have : lp' = lp := by rw [← hl, he]
  exact h (this ▸ hlp')

/-- Claim C1 (amended): the left spatial join emits, for an input point
occurring once among the joined points, exactly one output row per eligible
region whose polygon contains the point (in boundary-set order), or a single
row with null region id when no eligible region contains it — a point inside
k ≥ 2 eligible regions is duplicated into k rows, not collapsed to one. -/
theorem claim_C1_amended (pre post : List LabeledPoint)
    (regs : List BoundaryRegion) (lp : LabeledPoint)
    (hpre : lp ∉ pre) (hpost : lp ∉ post) :
    (sjoin_left_within (pre ++ lp :: post) regs).filter
        (fun j => decide (j.lp = lp)) = joinMatches regs lp ∧
      (joinMatches regs lp).map JoinedRow.GEOID20
        = (if (regs.filter (fun r => r.geometry lp.p.geometry)).isEmpty
           then [none]
           else (regs.filter (fun r => r.geometry lp.p.geometry)).map
             (fun r => some r.GEOID20)) := by
  constructor
  · have hsplit : sjoin_left_within (pre ++ lp :: post) regs
        = sjoin_left_within pre regs ++ (joinMatches regs lp
            ++ sjoin_left_within post regs) := by
      unfold sjoin_left_within
      rw [List.flatMap_append, List.flatMap_cons]
    rw [hsplit, List.filter_append, List.filter_append,
      sjoin_filter_not_mem hpre, sjoin_filter_not_mem hpost,
      List.filter_eq_self.mpr (fun j hj => by simp [joinMatches_lp j hj])]
    simp
  · unfold joinMatches
    split
    · rename_i hnil
      rw [hnil]
      simp
    · rename_i hne
      have hempty : ¬((regs.filter (fun r => r.geometry lp.p.geometry)).isEmpty = true) := by
        simp only [List.isEmpty_eq_true]
        exact fun h => hne h
      rw [if_neg hempty, List.map_map]
      rfl

/-- A resource point used in the C1 instances. -/
def c1p : PointRow :=
  ⟨some "P", "community_resource", "grocery", none, none, ⟨0, 0⟩⟩

/-- The labeled form of `c1p`. -/
def c1lp : LabeledPoint := labeled c1p

/-- Two eligible boundary regions whose polygons both contain every point. -/
def c1regs : List BoundaryRegion :=
  [⟨"R1", fun _ => true, "Org", some "t"⟩, ⟨"R2", fun _ => true, "Org", some "t"⟩]

/-- Witness for the amended C1 theorem at a concrete point lying inside both
of two overlapping eligible regions: the join emits the two rows R1, R2. -/
theorem claim_C1_amended_witness :
    (sjoin_left_within ([] ++ c1lp :: []) c1regs).filter
        (fun j => decide (j.lp = c1lp)) = joinMatches c1regs c1lp ∧
      (joinMatches c1regs c1lp).map JoinedRow.GEOID20
        = (if (c1regs.filter (fun r => r.geometry c1lp.p.geometry)).isEmpty
           then [none]
           else (c1regs.filter (fun r => r.geometry c1lp.p.geometry)).map
             (fun r => some r.GEOID20)) :=
  claim_C1_amended [] [] c1regs c1lp (by decide) (by decide)

/-- Input files with one resource point and two overlapping eligible
regions R1, R2 both containing it. -/
def c1inputs : Inputs :=
  { grantees_raw := [⟨"R1", some "Org", some "t", fun _ => true⟩,
                     ⟨"R2", some "Org", some "t", fun _ => true⟩]
    resources := [⟨some "P", "community_resource", "grocery", 0, 0⟩]
    fdic := []
    ncua := []
    childcare := []
    maryland_food_bank := []
    capital_area_food_bank := [] }

/-- Counterexample to claim C1 as stated: a single input point contained in
two eligible regions yields TWO joined rows (region ids R1 and R2) for the
same point — both reach the tabular extract — not exactly one. -/
theorem claim_C1_counterexample :
    (all_points c1inputs).length = 1 ∧
    (points_with_tracts c1inputs).map OutRow.GEOID20 = [some "R1", some "R2"] ∧
    (points_with_tracts c1inputs).map OutRow.lp = [labeled c1p, labeled c1p] ∧
    ((processInputs c1inputs).grantee_points_csv).length = 2 := by
  refine ⟨by decide, by decide, by decide, by decide⟩

end ResourceMap

namespace ResourceMap

/-- Claim C2: a point reaches an output file (the tabular extract or a
per-category geometry file) only if its geometry lies within the union of all
unfiltered boundary polygons; a point outside that union is absent from every
output, and every canonical point within the union is retained into the
joined set. -/
theorem claim_C2 (i : Inputs) :
    (∀ row ∈ (processInputs i).grantee_points_csv,
       withinUnion ⟨row.lng, row.lat⟩ i.grantees_raw = true) ∧
    (∀ f ∈ (processInputs i).category_files, ∀ row ∈ f.2,
       withinUnion row.lp.p.geometry i.grantees_raw = true) ∧
    (∀ p ∈ all_points i, withinUnion p.geometry i.grantees_raw = true →
       ∃ row ∈ points_with_tracts i, row.lp = labeled p) := by
  refine ⟨?_, ?_, ?_⟩
  · intro row hrow
    obtain ⟨r, hr, rfl⟩ := List.mem_map.mp hrow
    have hmem : r ∈ points_with_tracts i := List.mem_of_mem_filter hr
    have hwithin := (mem_points_in_md (mem_points_with_tracts hmem).1).2
    exact hwithin
  · intro f hf row hrow
    obtain ⟨t, _, rfl⟩ := List.mem_map.mp hf
    have hmem : row ∈ points_with_tracts i := List.mem_of_mem_filter hrow
    exact (mem_points_in_md (mem_points_with_tracts hmem).1).2
  · intro p hp hw
    have hlp : labeled p ∈ labeled_points i := List.mem_map_of_mem labeled hp
    have hin : labeled p ∈ points_in_md i := List.mem_filter.mpr ⟨hlp, hw⟩
    obtain ⟨j, hj⟩ := List.exists_mem_of_ne_nil _
      (joinMatches_ne_nil (grantees i.grantees_raw) (labeled p))
    refine ⟨⟨j.lp, j.GEOID20, isinGrantees i j.GEOID20⟩, ?_, joinMatches_lp j hj⟩
    exact List.mem_map_of_mem _ (List.mem_flatMap.mpr ⟨labeled p, hin, hj⟩)

/-- The inner join of `grantees_processed` expressed as a map over the
deduplicated geometry rows: every deduplicated row's key has exactly one
aggregated attribute row. -/
theorem grantees_processed_eq (rows : List GranteeRow) :
    grantees_processed rows = (unique_geometry rows).map (fun u =>
      ⟨u.GEOID20, u.geometry, orgAgg (groupOf rows u.GEOID20),
        trackAgg (groupOf rows u.GEOID20)⟩) := by
  unfold grantees_processed
  have hmemkeys : ∀ u ∈ unique_geometry rows,
      u.GEOID20 ∈ rows.map GranteeRow.GEOID20 := by
    intro u hu
    exact List.mem_map_of_mem _ (mem_of_mem_dedupFirstByAux rows hu).1
  generalize hL : unique_geometry rows = L at hmemkeys ⊢
  clear hL
  induction L with
  | nil => rfl
  | cons u us ih =>
    rw [List.flatMap_cons, List.map_cons,
      ih (fun v hv => hmemkeys v (List.mem_cons_of_mem _ hv))]
    rw [grantee_data_lookup (hmemkeys u (List.mem_cons_self _ _))]
    rfl

/-- Claim C3 (amended): the Boundary Loader produces exactly one row per
distinct `region_id` (in first-appearance order), whose geometry is the
first-seen geometry for that id, whose `organization_names` is the
semicolon-joined list of distinct non-null organization names in order of
first appearance, and whose `track_type` is the first NON-NULL value among
the group's rows (null when every row's value is null) — pandas'
`"first"` aggregation skips nulls, so it is not in general the literal first
row's value. -/
theorem claim_C3_amended (rows : List GranteeRow) :
    (grantees_processed rows).map BoundaryRegion.GEOID20
        = dedupFirst (rows.map GranteeRow.GEOID20) ∧
    ∀ b ∈ grantees_processed rows,
      (groupOf rows b.GEOID20).head?.map GranteeRow.geometry = some b.geometry ∧
      b.ORGANIZATION_NAME = String.intercalate "; "
        (dedupFirst ((groupOf rows b.GEOID20).filterMap
          GranteeRow.ORGANIZATION_NAME)) ∧
      b.GOC_TRACK_TYPE
        = ((groupOf rows b.GEOID20).filterMap GranteeRow.GOC_TRACK_TYPE).head? := by
  constructor
  · rw [grantees_processed_eq, List.map_map]
    have : (BoundaryRegion.GEOID20 ∘ fun u : GranteeRow =>
        (⟨u.GEOID20, u.geometry, orgAgg (groupOf rows u.GEOID20),
          trackAgg (groupOf rows u.GEOID20)⟩ : BoundaryRegion))
        = GranteeRow.GEOID20 := by
      funext u
      rfl
    rw [this]
    exact map_key_dedupFirstBy GranteeRow.GEOID20 rows
  · intro b hb
    rw [grantees_processed_eq] at hb
    obtain ⟨u, hu, rfl⟩ := List.mem_map.mp hb
    refine ⟨?_, rfl, rfl⟩
    have hhead := dedupFirstByAux_head rows hu
    show (rows.filter (fun r => decide (r.GEOID20 = u.GEOID20))).head?.map
      GranteeRow.geometry = some u.geometry
    rw [hhead]
    rfl

/-- A boundary source whose `region_id` group "R1" has a null `track_type`
on its first row and the value "X" on its second. -/
def c3rows : List GranteeRow :=
  [⟨"R1", some "A", none, fun _ => true⟩,
   ⟨"R1", some "B", some "X", fun _ => true⟩]

/-- Counterexample to claim C3 as stated: on `c3rows` the produced
`track_type` is "X" (the first non-null value), although the first row of the
group carries a null `track_type` — the output does not equal the first row's
value. -/
theorem claim_C3_counterexample :
    (grantees_processed c3rows).map BoundaryRegion.GOC_TRACK_TYPE = [some "X"] ∧
    c3rows.head?.map GranteeRow.GOC_TRACK_TYPE = some none := by
  refine ⟨by decide, by decide⟩

/-- The single boundary row produced for `c3rows`. -/
def c3b : BoundaryRegion :=
  ⟨"R1", fun _ => true, "A; B", some "X"⟩

/-- Witness for the amended C3 theorem on the concrete group `c3rows`: its
aggregated row has the first-seen geometry, organization names "A; B" and
track label "X". -/
theorem claim_C3_amended_witness :
    (grantees_processed c3rows).map BoundaryRegion.GEOID20
        = dedupFirst (c3rows.map GranteeRow.GEOID20) ∧
    ((groupOf c3rows c3b.GEOID20).head?.map GranteeRow.geometry
        = some c3b.geometry ∧
      c3b.ORGANIZATION_NAME = String.intercalate "; "
        (dedupFirst ((groupOf c3rows c3b.GEOID20).filterMap
          GranteeRow.ORGANIZATION_NAME)) ∧
      c3b.GOC_TRACK_TYPE
        = ((groupOf c3rows c3b.GEOID20).filterMap
            GranteeRow.GOC_TRACK_TYPE).head?) :=
  ⟨(claim_C3_amended c3rows).1,
   (claim_C3_amended c3rows).2 c3b (List.mem_singleton.mpr rfl)⟩

end ResourceMap

namespace ResourceMap

/-- Claim C4: every row of the tabular extract has `grantee = true` with a
non-null region id belonging to the eligible boundary set; on the joined set
the flag holds exactly when the region id is non-null and in the eligible
set, and exactly the flagged rows are written to the extract. -/
theorem claim_C4 (i : Inputs) :
    (∀ row ∈ (processInputs i).grantee_points_csv,
       row.grantee = true ∧
       ∃ g, row.GEOID20 = some g ∧ g ∈ grantee_geoids i) ∧
    (∀ row ∈ points_with_tracts i,
       (row.grantee = true ↔ ∃ g, row.GEOID20 = some g ∧ g ∈ grantee_geoids i)) ∧
    (∀ row ∈ points_with_tracts i, row.grantee = true →
       toCsvRow row ∈ (processInputs i).grantee_points_csv) := by
  have hflag : ∀ row ∈ points_with_tracts i,
      (row.grantee = true ↔ ∃ g, row.GEOID20 = some g ∧ g ∈ grantee_geoids i) := by
    intro row hrow
    have heq := (mem_points_with_tracts hrow).2.1
    rw [heq]
    cases hg : row.GEOID20 with
    | none => simp [isinGrantees]
    | some g =>
      simp only [isinGrantees]
      constructor
      · intro hc
        exact ⟨g, rfl, by simpa using hc⟩
      · rintro ⟨g', hg', hmem⟩
        obtain rfl : g = g' := by simpa using hg'
        simpa using hmem
  refine ⟨?_, hflag, ?_⟩
  · intro row hrow
    obtain ⟨r, hr, rfl⟩ := List.mem_map.mp hrow
    obtain ⟨hrmem, hrflag⟩ := List.mem_filter.mp hr
    have : r.grantee = true := hrflag
    refine ⟨this, ?_⟩
    have := (hflag r hrmem).mp this
    exact this
  · intro row hrow hflagtrue
    exact List.mem_map_of_mem toCsvRow (List.mem_filter.mpr ⟨hrow, hflagtrue⟩)

/-- Claim C5: a boundary region is in the eligible set exactly when its
aggregated track label is non-null and non-empty; the eligible set is what
the boundary output file holds, and every region id the join assigns comes
from the eligible set. -/
theorem claim_C5 (i : Inputs) :
    (∀ b, b ∈ grantees i.grantees_raw ↔
       (b ∈ grantees_processed i.grantees_raw ∧
        b.GOC_TRACK_TYPE ≠ none ∧ b.GOC_TRACK_TYPE ≠ some "")) ∧
    ((processInputs i).grantees_geojson = grantees i.grantees_raw) ∧
    (∀ row ∈ points_with_tracts i, ∀ g, row.GEOID20 = some g →
       g ∈ (grantees i.grantees_raw).map BoundaryRegion.GEOID20) := by
  refine ⟨?_, rfl, ?_⟩
  · intro b
    unfold grantees
    rw [List.mem_filter]
    constructor
    · rintro ⟨hmem, helig⟩
      refine ⟨hmem, ?_, ?_⟩
      · intro hnone
        rw [hnone] at helig
        simp [eligibleTrack] at helig
      · intro hempty
        rw [hempty] at helig
        simp [eligibleTrack] at helig
    · rintro ⟨hmem, hnone, hempty⟩
      refine ⟨hmem, ?_⟩
      cases ht : b.GOC_TRACK_TYPE with
      | none => exact absurd ht hnone
      | some s =>
        simp only [eligibleTrack, Bool.not_eq_true']
        rw [decide_eq_false_iff_not]
        intro hs
        exact hempty (by rw [ht, hs])
  · intro row hrow g hg
    exact (mem_points_with_tracts hrow).2.2 g hg

/-- Claim C6: a per-category geometry file exists exactly for the category
values occurring among the joined points; each file holds the full subset of
its category — eligibility is not filtered — and is never empty. -/
theorem claim_C6 (i : Inputs) :
    (∀ f ∈ (processInputs i).category_files,
       f.2 = (points_with_tracts i).filter (fun r => decide (r.lp.p.type = f.1)) ∧
       f.2 ≠ []) ∧
    (∀ t, (∃ row ∈ points_with_tracts i, row.lp.p.type = t) ↔
       (∃ rows, (t, rows) ∈ (processInputs i).category_files)) := by
  constructor
  · intro f hf
    obtain ⟨t, ht, rfl⟩ := List.mem_map.mp hf
    refine ⟨rfl, ?_⟩
    have ht' : t ∈ (points_with_tracts i).map (fun r => r.lp.p.type) :=
      mem_dedupFirst.mp ht
    obtain ⟨row, hrow, hrt⟩ := List.mem_map.mp ht'
    exact List.ne_nil_of_mem
      (List.mem_filter.mpr ⟨hrow, by simpa using hrt⟩)
  · intro t
    constructor
    · rintro ⟨row, hrow, hrt⟩
      refine ⟨(points_with_tracts i).filter (fun r => decide (r.lp.p.type = t)), ?_⟩
      have ht : t ∈ dedupFirst ((points_with_tracts i).map (fun r => r.lp.p.type)) :=
        mem_dedupFirst.mpr (List.mem_map.mpr ⟨row, hrow, hrt⟩)
      exact List.mem_map_of_mem _ ht
    · rintro ⟨rows, hmem⟩
      obtain ⟨t', ht', heq⟩ := List.mem_map.mp hmem
      obtain rfl : t' = t := congrArg Prod.fst heq
      have := mem_dedupFirst.mp ht'
      obtain ⟨row, hrow, hrt⟩ := List.mem_map.mp this
      exact ⟨row, hrow, hrt⟩

end ResourceMap

namespace ResourceMap

/-- Success characterization of `run`: outputs are produced exactly when the
boundary source could be acquired and all six point-source files are
present. -/
theorem run_eq_some {force_refresh_grantees : Bool} {fs : FileSystem}
    {o : Outputs} :
    run force_refresh_grantees fs = some o ↔
      ∃ graw rs fd nc cc mf cf,
        fetch_grantees force_refresh_grantees fs = some graw ∧
        fs.resources = some rs ∧ fs.fdic = some fd ∧ fs.ncua = some nc ∧
        fs.childcare = some cc ∧ fs.maryland_food_bank = some mf ∧
        fs.capital_area_food_bank = some cf ∧
        o = processInputs ⟨graw, rs, fd, nc, cc, mf, cf⟩ := by
  simp only [run, bind, Option.bind_eq_some]
  constructor
  · rintro ⟨graw, hg, rs, hr, fd, hf, nc, hn, cc, hc, mf, hm, cf, hcf, ho⟩
    exact ⟨graw, rs, fd, nc, cc, mf, cf, hg, hr, hf, hn, hc, hm, hcf,
      (Option.some_inj.mp ho).symm⟩
  · rintro ⟨graw, rs, fd, nc, cc, mf, cf, hg, hr, hf, hn, hc, hm, hcf, ho⟩
    exact ⟨graw, hg, rs, hr, fd, hf, nc, hn, cc, hc, mf, hm, cf, hcf,
      by rw [ho]⟩

/-- Claim C7: when any required source file is absent — the resource points
CSV, either financial geometry file, the childcare geometry file, either
food-bank geometry file, or the boundary source with no usable cache and no
successful download — the run aborts and produces no output at all (in the
source every input is read before the first output file is written). -/
theorem claim_C7 (force_refresh_grantees : Bool) (fs : FileSystem)
    (h : fs.resources = none ∨ fs.fdic = none ∨ fs.ncua = none ∨
         fs.childcare = none ∨ fs.maryland_food_bank = none ∨
         fs.capital_area_food_bank = none ∨
         (fs.grantees_cache = none ∧ fs.grantees_download = none)) :
    run force_refresh_grantees fs = none := by
  cases hrun : run force_refresh_grantees fs with
  | none => rfl
  | some o =>
    exfalso
    obtain ⟨graw, rs, fd, nc, cc, mf, cf, hg, hr, hf, hn, hc, hm, hcf, _⟩ :=
      run_eq_some.mp hrun
    rcases h with h | h | h | h | h | h | ⟨h1, h2⟩
    · rw [h] at hr
      exact Option.noConfusion hr
    · rw [h] at hf
      exact Option.noConfusion hf
    · rw [h] at hn
      exact Option.noConfusion hn
    · rw [h] at hc
      exact Option.noConfusion hc
    · rw [h] at hm
      exact Option.noConfusion hm
    · rw [h] at hcf
      exact Option.noConfusion hcf
    · rw [fetch_grantees, h1, h2] at hg
      simp at hg

/-- A file system with every input file absent. -/
def fsAllAbsent : FileSystem :=
  ⟨none, none, none, none, none, none, none, none⟩

/-- Witness for C7: with the resource CSV (among others) absent, the run
yields no outputs. -/
theorem claim_C7_witness :
    fsAllAbsent.resources = none ∧ run false fsAllAbsent = none :=
  ⟨rfl, claim_C7 false fsAllAbsent (Or.inl rfl)⟩

/-- Claim C8: the embedded transform is a pure function of the input file
contents — two runs over identical file systems (same force flag) produce
identical outputs; the source's only inputs are the files it reads and its
only outputs are the returned file contents. -/
theorem claim_C8 (force_refresh_grantees : Bool) (fs1 fs2 : FileSystem)
    (h : fs1 = fs2) :
    run force_refresh_grantees fs1 = run force_refresh_grantees fs2 :=
  congrArg (run force_refresh_grantees) h

/-- A small concrete file system for the C8 witness. -/
def c8fs : FileSystem :=
  { grantees_cache := some [⟨"T1", some "Org", some "t", fun _ => true⟩]
    grantees_download := none
    resources := some [⟨some "P", "community_resource", "grocery", 1, 2⟩]
    fdic := some []
    ncua := some []
    childcare := some []
    maryland_food_bank := some []
    capital_area_food_bank := some [] }

/-- Witness for C8 at a concrete file system. -/
theorem claim_C8_witness :
    c8fs = c8fs ∧ run false c8fs = run false c8fs :=
  ⟨rfl, claim_C8 false c8fs c8fs rfl⟩

/-- Claim C9: every row of the tabular extract carries the whole canonical
point record (name, category, subtag, quality, financial flags) of one input
point together with the derived labels — underscore-to-space and
title-casing of `type` and `tag` — the eligibility flag column with value
true, and `lng`/`lat` columns equal to the point's coordinates. -/
theorem claim_C9 (i : Inputs) :
    ∀ row ∈ (processInputs i).grantee_points_csv,
      row.grantee = true ∧
      row.type_label = strTitle (replaceChar '_' ' ' row.type) ∧
      row.tag_label = strTitle (replaceChar '_' ' ' row.tag) ∧
      ∃ p ∈ all_points i,
        row.name = p.name ∧ row.type = p.type ∧ row.tag = p.tag ∧
        row.quality = p.quality ∧ row.flags = p.flags ∧
        row.lng = p.geometry.x ∧ row.lat = p.geometry.y := by
  intro row hrow
  obtain ⟨r, hr, rfl⟩ := List.mem_map.mp hrow
  obtain ⟨hrmem, hrflag⟩ := List.mem_filter.mp hr
  have hlp := (mem_points_with_tracts hrmem).1
  have hlab := (mem_points_in_md hlp).1
  obtain ⟨p, hp, hlpeq⟩ := List.mem_map.mp hlab
  refine ⟨hrflag, ?_, ?_, p, hp, ?_, ?_, ?_, ?_, ?_, ?_, ?_⟩ <;>
    simp only [toCsvRow] <;>
    rw [show r.lp = labeled p from hlpeq.symm] <;> rfl

end ResourceMap

namespace MarylandExcel

/-- Claim C10: a feature is emitted for a provider record exactly when both
coordinates parse as numbers, and its `quality` is either the integer
conversion of the provider's overall rating or null when the rating is
absent or not integer-convertible; a record whose longitude or latitude does
not parse yields no feature at all. -/
theorem claim_C10 (r : ProviderRecord) :
    (create_geojson_feature r = none ↔
       (pyFloat r.long = none ∨ pyFloat r.lat = none)) ∧
    (∀ f, create_geojson_feature r = some f →
       ((∃ n, f.quality = some n ∧ pyInt r.rating = some n) ∨
        (f.quality = none ∧
          (r.rating = PyVal.pnone ∨ pyInt r.rating = none)))) := by
  constructor
  · unfold create_geojson_feature
    cases hlong : pyFloat r.long with
    | none => simp
    | some lon =>
      cases hlat : pyFloat r.lat with
      | none => simp
      | some lat => simp
  · intro f hf
    unfold create_geojson_feature at hf
    cases hlong : pyFloat r.long with
    | none =>
      rw [hlong] at hf
      exact Option.noConfusion hf
    | some lon =>
      rw [hlong] at hf
      cases hlat : pyFloat r.lat with
      | none =>
        rw [hlat] at hf
        exact Option.noConfusion hf
      | some lat =>
        rw [hlat] at hf
        obtain rfl : f = _ := (Option.some_inj.mp hf).symm
        cases hr : r.rating with
        | pnone => exact Or.inr ⟨rfl, Or.inl rfl⟩
        | pstr s =>
          cases hq : pyInt (PyVal.pstr s) with
          | none => exact Or.inr ⟨hq, Or.inr rfl⟩
          | some n => exact Or.inl ⟨n, hq, rfl⟩
        | pint n => exact Or.inl ⟨n, rfl, rfl⟩
        | pfloat q => exact Or.inl ⟨q.num.tdiv (q.den : Int), rfl, rfl⟩
        | pother => exact Or.inr ⟨rfl, Or.inr rfl⟩

end MarylandExcel

namespace ResourceMap

/-- The canonical point used by the witness instances. -/
def wp : PointRow :=
  ⟨some "P", "community_resource", "grocery", none, none, ⟨5, 6⟩⟩

/-- Witness input files: one resource point inside one eligible region W1. -/
def wtInputs : Inputs :=
  { grantees_raw := [⟨"W1", some "Org", some "t", fun _ => true⟩]
    resources := [⟨some "P", "community_resource", "grocery", 6, 5⟩]
    fdic := []
    ncua := []
    childcare := []
    maryland_food_bank := []
    capital_area_food_bank := [] }

/-- The single joined row `wtInputs` produces. -/
def wtRow : OutRow :=
  ⟨labeled wp, some "W1", true⟩

/-- Witness for C2 on `wtInputs`: the single extract row's coordinates lie
within the boundary union. -/
theorem claim_C2_witness :
    toCsvRow wtRow ∈ (processInputs wtInputs).grantee_points_csv ∧
    withinUnion ⟨(toCsvRow wtRow).lng, (toCsvRow wtRow).lat⟩
      wtInputs.grantees_raw = true :=
  ⟨by decide, (claim_C2 wtInputs).1 (toCsvRow wtRow) (by decide)⟩

/-- Witness for C4 on `wtInputs`: the single extract row is flagged eligible
with region id W1 in the eligible set. -/
theorem claim_C4_witness :
    toCsvRow wtRow ∈ (processInputs wtInputs).grantee_points_csv ∧
    ((toCsvRow wtRow).grantee = true ∧
     ∃ g, (toCsvRow wtRow).GEOID20 = some g ∧ g ∈ grantee_geoids wtInputs) :=
  ⟨by decide, (claim_C4 wtInputs).1 (toCsvRow wtRow) (by decide)⟩

/-- Witness for C5 on `wtInputs`: the joined row's region id W1 comes from
the eligible boundary set. -/
theorem claim_C5_witness :
    wtRow ∈ points_with_tracts wtInputs ∧ wtRow.GEOID20 = some "W1" ∧
    "W1" ∈ (grantees wtInputs.grantees_raw).map BoundaryRegion.GEOID20 :=
  ⟨by decide, by decide,
   (claim_C5 wtInputs).2.2 wtRow (by decide) "W1" (by decide)⟩

/-- Witness for C6 on `wtInputs`: the community-resource category has a
point, hence a per-category file. -/
theorem claim_C6_witness :
    (∃ row ∈ points_with_tracts wtInputs,
       row.lp.p.type = "community_resource") ∧
    (∃ rows, ("community_resource", rows) ∈
       (processInputs wtInputs).category_files) :=
  ⟨⟨wtRow, by decide, rfl⟩,
   ((claim_C6 wtInputs).2 "community_resource").mp ⟨wtRow, by decide, rfl⟩⟩

/-- Witness for C9 on `wtInputs`: the single extract row carries the point's
attributes, derived labels and coordinates. -/
theorem claim_C9_witness :
    toCsvRow wtRow ∈ (processInputs wtInputs).grantee_points_csv ∧
    ((toCsvRow wtRow).grantee = true ∧
     (toCsvRow wtRow).type_label
        = strTitle (replaceChar '_' ' ' (toCsvRow wtRow).type) ∧
     (toCsvRow wtRow).tag_label
        = strTitle (replaceChar '_' ' ' (toCsvRow wtRow).tag) ∧
     ∃ p ∈ all_points wtInputs,
       (toCsvRow wtRow).name = p.name ∧ (toCsvRow wtRow).type = p.type ∧
       (toCsvRow wtRow).tag = p.tag ∧ (toCsvRow wtRow).quality = p.quality ∧
       (toCsvRow wtRow).flags = p.flags ∧
       (toCsvRow wtRow).lng = p.geometry.x ∧
       (toCsvRow wtRow).lat = p.geometry.y) :=
  ⟨by decide, claim_C9 wtInputs (toCsvRow wtRow) (by decide)⟩

end ResourceMap

namespace MarylandExcel

/-- A provider record with parseable coordinates and the rating "4". -/
def c10rec : ProviderRecord :=
  ⟨some "n", some "t", PyVal.pint 1, PyVal.pint 2, PyVal.pstr "4"⟩

/-- The feature emitted for `c10rec`. -/
def c10feat : Feature :=
  ⟨1, 2, some "n", some "t", some 4⟩

/-- Witness for C10: `c10rec` yields a feature whose quality is the integer
conversion of its rating. -/
theorem claim_C10_witness :
    create_geojson_feature c10rec = some c10feat ∧
    ((∃ n, c10feat.quality = some n ∧ pyInt c10rec.rating = some n) ∨
     (c10feat.quality = none ∧
       (c10rec.rating = PyVal.pnone ∨ pyInt c10rec.rating = none))) :=
  ⟨by decide, (claim_C10 c10rec).2 c10feat (by decide)⟩

end MarylandExcel
